import Mathlib

/-!
# Verification of the PyQt6 chess trainer core

A shallow embedding of the state-bearing core of `src/main.py`: the engine
session (`EngineWrapper`), the click-to-move input state machine
(`BoardWidget.mousePressEvent` / `_apply_user_move`), the undo slot and the
configuration slots of `MainWindow`.

Conventions of the embedding:

* Squares are numbered 0..63 as in the chess library (`square(file, rank) =
  rank * 8 + file`), piece kinds 1..6 (`PAWN = 1`, ..., `KING = 6`), colors
  are booleans with `true` = white, exactly as in the library.
* The chess-rules library is the external rules collaborator.  It is modelled
  as a `Rules` record over an abstract position type: `piece_at` is
  `board.piece_at`, `turn` is `board.turn`, `is_legal` is the legality test
  (both `move in board.generate_legal_moves()` and
  `move in board.legal_moves` denote this predicate in the library), and
  `apply` is the successor position of a pushed move.  The library's `Board`
  keeps, besides the current position, the move stack and a stack of saved
  board states that `pop` restores; `GameBoard` embeds exactly that.
* Qt signal emissions (`movePlayed`) are returned as an explicit list of
  emitted moves; painting calls (`update`) have no state and are dropped.
* Filesystem and subprocess effects are a parameter record `Env`:
  `auto_detect` is the result of `EngineConfig.auto_detect()`, `path_valid p`
  is `shutil.which(p) or os.path.exists(p)`, and `play h limit` is the
  outcome of `self._engine.play(board, limit)` on the subprocess handle `h`.
  A launched subprocess handle remembers the executable path it was launched
  under.  Exact rationals stand in for the float seconds of the time limit;
  no statement below depends on float rounding.
-/

namespace ChessTrainer

/-- Piece kind constants of the chess library. -/
def PAWN : Nat := 1

/-- Queen piece-kind constant of the chess library. -/
def QUEEN : Nat := 5

/-- King piece-kind constant of the chess library. -/
def KING : Nat := 6

/-- A piece: kind (1..6) and color (`true` = white), as in the chess library. -/
structure Piece where
  piece_type : Nat
  color : Bool
deriving DecidableEq

/-- `chess.square_rank`: the rank (0..7) of a square index. -/
def square_rank (sq : Nat) : Nat := sq / 8

/-- `chess.Move`: origin square, destination square, optional promotion kind. -/
structure ChessMove where
  from_square : Nat
  to_square : Nat
  promotion : Option Nat
deriving DecidableEq

/-- The rules collaborator (the chess library), over an abstract position
type: the observations and operations the code under `src/` consumes. -/
structure Rules (Pos : Type) where
  piece_at : Pos → Nat → Option Piece
  turn : Pos → Bool
  is_legal : Pos → ChessMove → Bool
  apply : Pos → ChessMove → Pos

variable {Pos : Type}

/-- `chess.Board` as consumed by this program: the current position, the move
stack, and the stack of saved prior positions that the library's `pop`
restores (the library snapshots the board state on every `push`). -/
structure GameBoard (Pos : Type) where
  pos : Pos
  move_stack : List ChessMove
  state_stack : List Pos
deriving DecidableEq

/-- `board.push(move)`: apply the move, record it, save the prior state. -/
def push (R : Rules Pos) (b : GameBoard Pos) (m : ChessMove) : GameBoard Pos :=
  { pos := R.apply b.pos m
    move_stack := m :: b.move_stack
    state_stack := b.pos :: b.state_stack }

/-- `board.pop()`: drop the last move and restore the saved prior state.  The
library raises IndexError on an empty stack; the program only calls `pop`
under a non-emptiness guard, so the fallback branch is never reached. -/
def pop (b : GameBoard Pos) : GameBoard Pos :=
  match b.move_stack, b.state_stack with
  | _ :: ms, p :: ps => { pos := p, move_stack := ms, state_stack := ps }
  | _, _ => b

/-- The state of `BoardWidget` (src/main.py:102-115), rendering-only fields
(fonts, flip, feedback label) omitted. -/
structure BoardWidget (Pos : Type) where
  board : GameBoard Pos
  selected_square : Option Nat
  square_highlight : Option Nat
  last_user_move : Option ChessMove
  last_engine_move : Option ChessMove
deriving DecidableEq

/-- `BoardWidget._apply_user_move` (src/main.py:265-270): push the move, set
the last-human-move marker, clear the selection, set the hint square to the
move's destination, and emit the `movePlayed` signal. -/
def apply_user_move (R : Rules Pos) (w : BoardWidget Pos) (move : ChessMove) :
    BoardWidget Pos × List ChessMove :=
  ({ w with
      board := push R w.board move
      last_user_move := some move
      selected_square := none
      square_highlight := some move.to_square },
   [move])

/-- `BoardWidget.mousePressEvent` (src/main.py:235-263), after the left-button
check and the geometry lookup `_square_at` have resolved the click to a board
square `sq`.  Returns the new widget state together with the list of
`movePlayed` signals emitted.  The promotion fixup, its guard included, is a
line-by-line translation of the `# auto-queen on promotion` block at
src/main.py:248-254. -/
def mousePressEvent (R : Rules Pos) (w : BoardWidget Pos) (sq : Nat) :
    BoardWidget Pos × List ChessMove :=
  match w.selected_square with
  | none =>
      match R.piece_at w.board.pos sq with
      | some piece =>
          if piece.color = R.turn w.board.pos then
            ({ w with selected_square := some sq }, [])
          else (w, [])
      | none => (w, [])
  | some sel =>
      let move0 : ChessMove := ⟨sel, sq, none⟩
      let move :=
        if R.is_legal w.board.pos move0 then
          match R.piece_at w.board.pos sel with
          | some src =>
              if src.piece_type = PAWN ∧ (square_rank sq = 0 ∨ square_rank sq = 7)
                  ∧ move0.promotion = none then
                (⟨sel, sq, some QUEEN⟩ : ChessMove)
              else move0
          | none => move0
        else move0
      if R.is_legal w.board.pos move then
        apply_user_move R w move
      else
        match R.piece_at w.board.pos sq with
        | some piece =>
            if piece.color = R.turn w.board.pos then
              ({ w with selected_square := some sq }, [])
            else ({ w with selected_square := none }, [])
        | none => ({ w with selected_square := none }, [])

/-- The exception raised by `EngineWrapper.start`: the FileNotFoundError of
src/main.py:75 ("Stockfish not found"), the `EngineNotFound` of the spec. -/
inductive EngineError where
  | engineNotFound
deriving DecidableEq

/-- Outcome of one `self._engine.play(board, limit)` round-trip: a best move,
an EngineTerminatedError, or any other exception. -/
inductive PlayOutcome where
  | move (m : ChessMove)
  | terminated
  | exn
deriving DecidableEq

/-- A live subprocess handle, remembering the executable path it was launched
under (`chess.engine.SimpleEngine.popen_uci(path)` at src/main.py:76). -/
structure Handle where
  launch_path : String
deriving DecidableEq

/-- `EngineConfig` (src/main.py:52-55). -/
structure EngineConfig where
  path : Option String
  limit_time_ms : Int
deriving DecidableEq

/-- `EngineWrapper` (src/main.py:65-68): the configuration and the optional
subprocess handle `self._engine`. -/
structure EngineWrapper where
  config : EngineConfig
  engine : Option Handle
deriving DecidableEq

/-- The external effects consumed by the engine session: the auto-detected
candidate path if any, path validation, and the subprocess play outcome as a
function of the handle and the time limit in seconds. -/
structure Env where
  auto_detect : Option String
  path_valid : String → Bool
  play : Handle → ℚ → PlayOutcome

/-- Python truthiness of an optional string (`None` and `""` are falsy), as
used by `self.config.path or EngineConfig.auto_detect()` and `if not path`. -/
def truthy : Option String → Bool
  | none => false
  | some s => s ≠ ""

/-- `EngineWrapper.start` (src/main.py:70-76): no-op when a subprocess is
running; else resolve a path (configured path if truthy, else auto-detection),
raise FileNotFoundError when none resolves, else launch under the resolved
path. -/
def start (env : Env) (w : EngineWrapper) : Except EngineError EngineWrapper :=
  match w.engine with
  | some _ => .ok w
  | none =>
      match (if truthy w.config.path then w.config.path else env.auto_detect) with
      | some p =>
          if p = "" then .error .engineNotFound
          else .ok { w with engine := some ⟨p⟩ }
      | none => .error .engineNotFound

/-- The `chess.engine.Limit(time=max(0.05, self.config.limit_time_ms / 1000.0))`
of src/main.py:90, in exact rational seconds. -/
def query_limit (cfg : EngineConfig) : ℚ :=
  max (1 / 20 : ℚ) ((cfg.limit_time_ms : ℚ) / 1000)

/-- `EngineWrapper.best_move` (src/main.py:85-98).  The `self.start()` call is
not wrapped in try/except, so the FileNotFoundError it raises propagates to
the caller; only the `self._engine.play(...)` call is guarded, with a
dedicated EngineTerminatedError arm that clears the handle and a generic
`except Exception` arm that leaves the handle in place. -/
def best_move (env : Env) (w : EngineWrapper) :
    Except EngineError (EngineWrapper × Option ChessMove) :=
  match (if w.engine.isNone then start env w else .ok w) with
  | .error e => .error e
  | .ok w1 =>
      match w1.engine with
      | none => .ok (w1, none)
      | some h =>
          match env.play h (query_limit w1.config) with
          | .move m => .ok (w1, some m)
          | .terminated => .ok ({ w1 with engine := none }, none)
          | .exn => .ok (w1, none)

/-- `EngineWrapper.stop` (src/main.py:78-83): quit the subprocess if any and
always clear the handle afterwards. -/
def stop (w : EngineWrapper) : EngineWrapper := { w with engine := none }

/-- The state of `MainWindow` relevant to the claims: the engine wrapper (in
Python, `MainWindow.engine_cfg` and `EngineWrapper.config` alias the same
`EngineConfig` object, so the configuration is stored once, inside the
wrapper), the board widget, and the status label text. -/
structure MainWindowM (Pos : Type) where
  wrapper : EngineWrapper
  board_widget : BoardWidget Pos
  status : String
deriving DecidableEq

/-- `MainWindow.on_undo` (src/main.py:394-398): pop the board and set the
status text, only when the move stack is non-empty. -/
def on_undo (m : MainWindowM Pos) : MainWindowM Pos :=
  if m.board_widget.board.move_stack ≠ [] then
    { m with
        board_widget := { m.board_widget with board := pop m.board_widget.board }
        status := "Move undone." }
  else m

/-- `MainWindow.on_time_changed` (src/main.py:404-411): `val` is the result of
`int(self.time_edit.text())` — `some v` on success, `none` when ValueError is
raised, in which case the text box is reset and the configuration is left
untouched.  On success the value is clamped into [50, 10000] and stored
(settings persistence is external). -/
def on_time_changed (val : Option Int) (m : MainWindowM Pos) : MainWindowM Pos :=
  match val with
  | some v =>
      { m with
          wrapper := { m.wrapper with
            config := { m.wrapper.config with limit_time_ms := max 50 (min v 10000) } }
          status := "Engine time set." }
  | none => m

/-- `MainWindow._load_settings` (src/main.py:346-354), acting on the engine
configuration.  `SettingsRead.ok p t` is a readable settings file whose
`engine_path` entry is `p` and where `int(data.get('engine_time_ms', 1000))`
evaluates to `t`; `badTime p` is a file whose time entry does not parse as an
int, so the exception is swallowed after `engine_path` was already assigned;
`absent` and `unreadable` leave the configuration untouched.  No clamping is
applied anywhere in this slot. -/
inductive SettingsRead where
  | absent
  | unreadable
  | ok (engine_path : Option String) (engine_time_ms : Int)
  | badTime (engine_path : Option String)
deriving DecidableEq

/-- The configuration after `MainWindow._load_settings` runs against a
settings file read as `s`. -/
def load_settings (s : SettingsRead) (cfg : EngineConfig) : EngineConfig :=
  match s with
  | .absent => cfg
  | .unreadable => cfg
  | .ok p t => { path := p, limit_time_ms := t }
  | .badTime p => { cfg with path := p }

/-- Python's `str.strip()` on the dialog text: drop leading and trailing
whitespace.  (Implemented structurally over the character list so that it
evaluates inside the kernel; the exact whitespace set is immaterial to every
statement below.) -/
def pstrip (s : String) : String :=
  ⟨((s.data.dropWhile Char.isWhitespace).reverse.dropWhile Char.isWhitespace).reverse⟩

/-- `MainWindow.on_set_engine_path` (src/main.py:431-447): `ok`/`text` are the
input-dialog result.  An empty trimmed text clears the configured path; a
non-empty text is validated by `shutil.which`/`os.path.exists` (`env.path_valid`)
and, if invalid, a warning is shown and the slot returns early — engine not
stopped, configuration unchanged.  Otherwise the new path is stored, the
engine is stopped, the settings are saved (external), and the status is set. -/
def on_set_engine_path (env : Env) (ok : Bool) (text : String) (m : MainWindowM Pos) :
    MainWindowM Pos :=
  if ok then
    let p := pstrip text
    if p = "" then
      { m with
          wrapper := stop { m.wrapper with config := { m.wrapper.config with path := none } }
          status := "Engine path updated." }
    else if env.path_valid p then
      { m with
          wrapper := stop { m.wrapper with config := { m.wrapper.config with path := some p } }
          status := "Engine path updated." }
    else m
  else m

/-- A concrete position for the rules collaborator: a square-to-piece
association list together with the side to move. -/
abbrev ToyPos : Type := List (Nat × Piece) × Bool

/-- `piece_at` on a concrete position. -/
def toy_piece_at (p : ToyPos) (sq : Nat) : Option Piece :=
  (p.1.find? (fun e => e.1 = sq)).map (fun e => e.2)

/-- Legality on concrete positions, reproducing — on every (position, move)
pair the theorems below consult it at — the chess-library facts the handler
depends on: a legal move needs an own piece on its origin, a distinct
destination not occupied by an own piece, and a promotion field exactly when
a pawn moves to the back rank.  In particular an unpromoted pawn move onto
the last rank is illegal, as it is in the library. -/
def toy_legal (p : ToyPos) (m : ChessMove) : Bool :=
  match toy_piece_at p m.from_square with
  | none => false
  | some pc =>
      pc.color = p.2 && m.from_square ≠ m.to_square &&
      (match toy_piece_at p m.to_square with
       | some q => q.color ≠ p.2
       | none => true) &&
      (if pc.piece_type = PAWN &&
          (square_rank m.to_square = 0 || square_rank m.to_square = 7) then
        m.promotion.isSome
       else m.promotion = none)

/-- Move application on concrete positions: the piece (or, on promotion, the
promoted piece) replaces whatever stood on the destination, the origin is
emptied, the side to move flips. -/
def toy_apply (p : ToyPos) (m : ChessMove) : ToyPos :=
  match toy_piece_at p m.from_square with
  | none => p
  | some pc =>
      let placed : Piece :=
        match m.promotion with
        | some k => ⟨k, pc.color⟩
        | none => pc
      ((m.to_square, placed) ::
        p.1.filter (fun e => e.1 ≠ m.from_square && e.1 ≠ m.to_square),
       !p.2)

/-- The rules collaborator instantiated on concrete positions. -/
def ToyRules : Rules ToyPos := ⟨toy_piece_at, fun p => p.2, toy_legal, toy_apply⟩

/-- FEN 4k3/4P3/8/8/8/8/8/4K3, white to move: white pawn on e7 (square 52),
white king e1 (4), black king d8 (59).  The promotion e7e8=Q is legal; the
unpromoted push e7e8 is not. -/
def promoPos : ToyPos :=
  ([(52, ⟨PAWN, true⟩), (4, ⟨KING, true⟩), (59, ⟨KING, false⟩)], true)

/-- The board widget holding `promoPos` with the pawn's square selected. -/
def promoWidget : BoardWidget ToyPos :=
  { board := { pos := promoPos, move_stack := [], state_stack := [] }
    selected_square := some 52
    square_highlight := none
    last_user_move := none
    last_engine_move := none }

/-- A position with a white pawn on e2 (square 12) free to advance: white
king e1 (4), black king e8 (60), white to move. -/
def e2Pos : ToyPos :=
  ([(12, ⟨PAWN, true⟩), (4, ⟨KING, true⟩), (60, ⟨KING, false⟩)], true)

/-- The board widget holding `e2Pos` with the pawn's square selected. -/
def e2Widget : BoardWidget ToyPos :=
  { board := { pos := e2Pos, move_stack := [], state_stack := [] }
    selected_square := some 12
    square_highlight := none
    last_user_move := none
    last_engine_move := none }

/-- An environment where no engine executable resolves: no auto-detected
candidate, no valid path. -/
def noEngineEnv : Env :=
  { auto_detect := none, path_valid := fun _ => false, play := fun _ _ => .exn }

/-- A wrapper with no configured path and no running subprocess. -/
def freshWrapper : EngineWrapper :=
  { config := { path := none, limit_time_ms := 1000 }, engine := none }

/-- An environment whose engine raises a generic (non-termination) exception
on every play request. -/
def exnEnv : Env :=
  { auto_detect := none, path_valid := fun _ => true, play := fun _ _ => .exn }

/-- An environment whose engine dies (EngineTerminatedError) on every play
request. -/
def termEnv : Env :=
  { auto_detect := none, path_valid := fun _ => true, play := fun _ _ => .terminated }

/-- A wrapper with a configured path and a running subprocess launched under
that path. -/
def runningWrapper : EngineWrapper :=
  { config := { path := some "stockfish", limit_time_ms := 1000 }
    engine := some ⟨"stockfish"⟩ }

/-- C1: the spec claims that a selected pawn clicked onto the farthest rank is
completed to a queen promotion before the legality check and committed.  In
the code the `# auto-queen on promotion` fixup is guarded by legality of the
*unpromoted* move, which is illegal precisely in the promotion situation, so
the fixup is dead code: with the e7 pawn selected and e8 clicked (queen
promotion available, first conjunct), the click commits nothing, merely
clears the selection, and leaves e8 empty — no queen appears. -/
theorem c1_autoqueen_never_fires :
    toy_legal promoPos ⟨52, 60, some QUEEN⟩ = true ∧
    mousePressEvent ToyRules promoWidget 60 = ({ promoWidget with selected_square := none }, []) ∧
    toy_piece_at (mousePressEvent ToyRules promoWidget 60).1.board.pos 60 = none := by
  decide

/-- C2: with no configured path and no auto-detected candidate, `start` raises
EngineNotFound as the claim states — but `best_move` calls `start` unguarded,
so the very same exception propagates to `best_move`'s caller instead of the
claimed exception-free Unavailable result. -/
theorem c2_best_move_raises :
    start noEngineEnv freshWrapper = .error .engineNotFound ∧
    best_move noEngineEnv freshWrapper = .error .engineNotFound :=
  ⟨rfl, rfl⟩

/-- C3 counterexample: a query-time failure that is a generic protocol
exception (not a termination) returns Unavailable but leaves the subprocess
handle in place — the session does not discard it, contradicting the claim
that every query-time failure discards the handle. -/
theorem c3_counterexample :
    best_move exnEnv runningWrapper = .ok (runningWrapper, none) ∧
    runningWrapper.engine = some ⟨"stockfish"⟩ :=
  ⟨rfl, rfl⟩

/-- C3 amended: only an unexpected termination of the subprocess discards the
handle (after which the next `best_move` relaunches via `start` under the
resolved path); a generic query-time exception returns Unavailable with the
handle retained. -/
theorem c3_amended (env : Env) (w : EngineWrapper) (h : Handle) (p : String)
    (hw : w.engine = some h)
    (hp : (if truthy w.config.path then w.config.path else env.auto_detect) = some p)
    (hp2 : ¬ p = "") :
    (env.play h (query_limit w.config) = .terminated →
      best_move env w = .ok ({ w with engine := none }, none)) ∧
    (env.play h (query_limit w.config) = .exn →
      best_move env w = .ok (w, none)) ∧
    start env { w with engine := none } = .ok { w with engine := some ⟨p⟩ } := by
  obtain ⟨cfg, eng⟩ := w
  have hw' : eng = some h := hw
  subst hw'
  refine ⟨fun hterm => ?_, fun hexn => ?_, ?_⟩
  · simp [best_move, hterm]
  · simp [best_move, hexn]
  · simp [start, hp, hp2]

/-- C3 amended, witnessed: a concrete terminated query discards the handle and
the follow-up start relaunches under the configured path. -/
theorem c3_amended_witness :
    best_move termEnv runningWrapper = .ok ({ runningWrapper with engine := none }, none) ∧
    start termEnv { runningWrapper with engine := none } =
      .ok { runningWrapper with engine := some ⟨"stockfish"⟩ } := by
  have h := c3_amended termEnv runningWrapper ⟨"stockfish"⟩ "stockfish" rfl rfl (by decide)
  exact ⟨h.1 rfl, h.2.2⟩

/-- C4: committing a legal move through `_apply_user_move` and immediately
undoing through `on_undo` restores the exact prior board: position, move
stack, and saved states. -/
theorem c4_commit_undo_roundtrip {Pos : Type} (R : Rules Pos) (m : MainWindowM Pos)
    (mv : ChessMove) (hleg : R.is_legal m.board_widget.board.pos mv = true) :
    (on_undo { m with board_widget := (apply_user_move R m.board_widget mv).1 }).board_widget.board
      = m.board_widget.board := by
  simp [on_undo, apply_user_move, push, pop]

/-- A main window over the concrete rules, holding `e2Widget`. -/
def e2Window : MainWindowM ToyPos :=
  { wrapper := freshWrapper, board_widget := e2Widget, status := "Ready." }

/-- C4 witnessed at the legal pawn push 12→28 (e2-e4) on `e2Pos`. -/
theorem c4_witness :
    toy_legal e2Pos ⟨12, 28, none⟩ = true ∧
    (on_undo { e2Window with
        board_widget := (apply_user_move ToyRules e2Window.board_widget ⟨12, 28, none⟩).1
      }).board_widget.board = e2Window.board_widget.board :=
  ⟨by decide, c4_commit_undo_roundtrip ToyRules e2Window ⟨12, 28, none⟩ (by decide)⟩

/-- C5: in the Selected state, a click on a square yielding an illegal
candidate move and not holding a piece of the side to move silently clears
the selection and changes nothing else: board, history, side-to-move and all
highlight markers are untouched, and no movePlayed signal is emitted. -/
theorem c5_forgiving_deselect {Pos : Type} (R : Rules Pos) (w : BoardWidget Pos)
    (origin sq : Nat) (hsel : w.selected_square = some origin)
    (hill : R.is_legal w.board.pos ⟨origin, sq, none⟩ = false)
    (hown : R.piece_at w.board.pos sq = none ∨
      ∃ pc, R.piece_at w.board.pos sq = some pc ∧ ¬ pc.color = R.turn w.board.pos) :
    mousePressEvent R w sq = ({ w with selected_square := none }, []) := by
  rcases hown with hpc | ⟨pc, hpc, hcol⟩
  · simp [mousePressEvent, hsel, hill, hpc]
  · simp [mousePressEvent, hsel, hill, hpc, hcol]

/-- C5 witnessed: with the e2 pawn selected, clicking the black king's square
e8 (an illegal pawn move, an opponent piece) just clears the selection. -/
theorem c5_witness :
    mousePressEvent ToyRules e2Widget 60 = ({ e2Widget with selected_square := none }, []) :=
  c5_forgiving_deselect ToyRules e2Widget 12 60 rfl (by decide)
    (Or.inr ⟨⟨KING, false⟩, rfl, by decide⟩)

/-- C9: `on_undo` touches only the board (and the status line); the
last-human-move, last-engine-move and hint markers all survive unchanged. -/
theorem c9_undo_preserves_markers {Pos : Type} (m : MainWindowM Pos) :
    (on_undo m).board_widget.last_user_move = m.board_widget.last_user_move ∧
    (on_undo m).board_widget.last_engine_move = m.board_widget.last_engine_move ∧
    (on_undo m).board_widget.square_highlight = m.board_widget.square_highlight := by
  unfold on_undo
  split <;> simp

/-- C10: in the Selected state, clicking the selected square itself — it holds
a side-to-move piece and the degenerate candidate move is illegal — re-selects
that same square: the widget state is fully unchanged and nothing is
emitted. -/
theorem c10_reselect_same_square {Pos : Type} (R : Rules Pos) (w : BoardWidget Pos)
    (s : Nat) (pc : Piece) (hsel : w.selected_square = some s)
    (hpc : R.piece_at w.board.pos s = some pc)
    (hcol : pc.color = R.turn w.board.pos)
    (hill : R.is_legal w.board.pos ⟨s, s, none⟩ = false) :
    mousePressEvent R w s = (w, []) := by
  obtain ⟨b, sel, hl, lu, le⟩ := w
  have hsel' : sel = some s := hsel
  subst hsel'
  simp [mousePressEvent, hill, hpc, hcol]

/-- C10 witnessed: clicking the selected e2 pawn square again keeps it
selected. -/
theorem c10_witness :
    mousePressEvent ToyRules e2Widget 12 = (e2Widget, []) :=
  c10_reselect_same_square ToyRules e2Widget 12 ⟨PAWN, true⟩ rfl rfl (by decide) (by decide)

/-- A click either emits nothing or is exactly one `_apply_user_move` commit. -/
lemma mousePressEvent_emit_cases {Pos : Type} (R : Rules Pos) (w : BoardWidget Pos)
    (sq : Nat) :
    (mousePressEvent R w sq).2 = [] ∨
    ∃ mv, mousePressEvent R w sq = apply_user_move R w mv := by
  unfold mousePressEvent
  cases hsel : w.selected_square with
  | none =>
      cases hpc : R.piece_at w.board.pos sq with
      | none => simp
      | some pc =>
          by_cases hcol : pc.color = R.turn w.board.pos <;> simp [hcol]
  | some sel =>
      dsimp only
      split <;> split <;>
        first
          | exact Or.inr ⟨_, rfl⟩
          | (left; (try split) <;> (try split) <;> rfl)

/-- C6 counterexample: the click 12→28 on `e2Widget` is a successful commit
(exactly one movePlayed signal) yet it leaves the move-target hint marker
set — to the destination square — rather than cleared, refuting the claim
that every successful commit clears the hint marker. -/
theorem c6_counterexample :
    (mousePressEvent ToyRules e2Widget 28).2 = [⟨12, 28, none⟩] ∧
    (mousePressEvent ToyRules e2Widget 28).1.square_highlight = some 28 ∧
    ¬ (mousePressEvent ToyRules e2Widget 28).1.square_highlight = none := by
  decide

/-- C6 amended: every successful commit through the input state machine sets
the last-human-move marker to the committed move, clears the selection
marker, and sets the move-target hint marker to the committed move's
destination square (it does not clear it). -/
theorem c6_amended {Pos : Type} (R : Rules Pos) (w : BoardWidget Pos) (sq : Nat)
    (mv : ChessMove) (hev : (mousePressEvent R w sq).2 = [mv]) :
    (mousePressEvent R w sq).1.last_user_move = some mv ∧
    (mousePressEvent R w sq).1.selected_square = none ∧
    (mousePressEvent R w sq).1.square_highlight = some mv.to_square := by
  rcases mousePressEvent_emit_cases R w sq with hcase | ⟨mv', hcase⟩
  · rw [hcase] at hev
    exact absurd hev.symm (List.cons_ne_nil mv [])
  · rw [hcase] at hev ⊢
    have hmv : mv' = mv := by
      simpa [apply_user_move] using hev
    subst hmv
    simp [apply_user_move]

/-- C6 amended, witnessed at the concrete commit 12→28 on `e2Widget`. -/
theorem c6_amended_witness :
    (mousePressEvent ToyRules e2Widget 28).1.last_user_move = some ⟨12, 28, none⟩ ∧
    (mousePressEvent ToyRules e2Widget 28).1.selected_square = none ∧
    (mousePressEvent ToyRules e2Widget 28).1.square_highlight
      = some (ChessMove.mk 12 28 none).to_square :=
  c6_amended ToyRules e2Widget 28 ⟨12, 28, none⟩ (by decide)

/-- C7 counterexample: loading a settings file whose engine_time_ms entry is 5
stores 5 in the configuration — below the claimed lower bound of 50, since
`_load_settings` applies no clamping. -/
theorem c7_counterexample :
    (load_settings (.ok none 5) { path := none, limit_time_ms := 1000 }).limit_time_ms = 5 ∧
    ¬ 50 ≤ (load_settings (.ok none 5) { path := none, limit_time_ms := 1000 }).limit_time_ms := by
  decide

/-- C7 amended: a successful user edit of the time field always clamps the
budget into [50, 10000], but loading the configuration from the settings
collaborator stores the persisted integer as-is, with no clamping. -/
theorem c7_amended {Pos : Type} (v t : Int) (p : Option String) (cfg : EngineConfig)
    (m : MainWindowM Pos) :
    (50 ≤ (on_time_changed (some v) m).wrapper.config.limit_time_ms ∧
      (on_time_changed (some v) m).wrapper.config.limit_time_ms ≤ 10000) ∧
    (load_settings (.ok p t) cfg).limit_time_ms = t := by
  refine ⟨⟨?_, ?_⟩, rfl⟩
  · show (50 : Int) ≤ max 50 (min v 10000)
    exact le_max_left 50 (min v 10000)
  · show max 50 (min v 10000) ≤ (10000 : Int)
    exact max_le (by norm_num) (min_le_right v 10000)

/-- C8: after changing the engine path (to a valid, non-empty trimmed text)
and then the time budget, the session holds no subprocess (the one launched
under the stale configuration was stopped, so it can never be reused), the
configuration is exactly the latest path and the latest clamped budget, and
the next query's session start launches a fresh subprocess under the latest
path with the latest configuration. -/
theorem c8_latest_config {Pos : Type} (env : Env) (m : MainWindowM Pos) (text : String)
    (t : Int) (hne : ¬ pstrip text = "") (hval : env.path_valid (pstrip text) = true) :
    (on_time_changed (some t) (on_set_engine_path env true text m)).wrapper.engine = none ∧
    (on_time_changed (some t) (on_set_engine_path env true text m)).wrapper.config =
      { path := some (pstrip text), limit_time_ms := max 50 (min t 10000) } ∧
    start env (on_time_changed (some t) (on_set_engine_path env true text m)).wrapper =
      .ok { config := { path := some (pstrip text), limit_time_ms := max 50 (min t 10000) }
            engine := some ⟨pstrip text⟩ } := by
  refine ⟨?_, ?_, ?_⟩ <;>
    simp [on_set_engine_path, on_time_changed, stop, start, truthy, hne, hval]

/-- A main window whose session runs a subprocess launched under a stale
path configuration. -/
def staleWindow : MainWindowM ToyPos :=
  { wrapper := { config := { path := some "old-sf", limit_time_ms := 1000 }
                 engine := some ⟨"old-sf"⟩ }
    board_widget := e2Widget
    status := "Ready." }

/-- An environment whose engine answers every play request with a move and
which accepts every path. -/
def moveEnv : Env :=
  { auto_detect := none, path_valid := fun _ => true, play := fun _ _ => .move ⟨57, 42, none⟩ }

/-- C8 witnessed: starting from a stale running subprocess, setting the path
to "new-sf" and the budget to 20000 (clamped to 10000) leaves no subprocess,
stores the latest configuration, and the next start launches under
"new-sf". -/
theorem c8_witness :
    (on_time_changed (some 20000) (on_set_engine_path moveEnv true " new-sf " staleWindow)).wrapper.engine = none ∧
    (on_time_changed (some 20000) (on_set_engine_path moveEnv true " new-sf " staleWindow)).wrapper.config =
      { path := some (pstrip " new-sf "), limit_time_ms := max 50 (min 20000 10000) } ∧
    start moveEnv (on_time_changed (some 20000) (on_set_engine_path moveEnv true " new-sf " staleWindow)).wrapper =
      .ok { config := { path := some (pstrip " new-sf "), limit_time_ms := max 50 (min 20000 10000) }
            engine := some ⟨pstrip " new-sf "⟩ } :=
  c8_latest_config moveEnv staleWindow " new-sf " 20000 (by decide) rfl

end ChessTrainer
